import Mathlib

/-!
Verification of `gcloud_data_analysis_functions.py`: utility functions that
fetch data from Google Sheets / Google Drive / Google Cloud Storage and decode
the retrieved payload into a tabular frame, a mapping or a string, dispatching
on a caller-supplied format tag.

Retrieval (network and authentication) is an external collaborator boundary;
the embedding models the decode dispatch of each reader function over the
retrieved Raw Payload, plus the URL resource-id extraction and the
header/row framing of `read_private_sheets`.
-/

set_option autoImplicit false

namespace GCloudFns

/-- A cell of a tabular frame.  Models the values pandas materialises:
an integer-inferred cell or a plain string cell. -/
inductive Cell where
  | int (i : Int)
  | str (s : String)
deriving DecidableEq

/-- A tabular frame (models a `pandas.DataFrame`): column labels plus the
data rows, each row a list of cells in column order. -/
structure Frame where
  columns : List String
  cells : List (List Cell)
deriving DecidableEq

/-- An xlsx workbook: ordered sheets, each a named tabular frame.  An xlsx
byte payload is represented by the workbook its bytes encode, since the
binary format itself is opaque to the repository's code. -/
structure Workbook where
  sheets : List (String × Frame)
deriving DecidableEq

/-- The Raw Payload handed to the decode step of each reader function:
either plain bytes (text formats: csv, json, txt) or bytes that constitute
an opaque binary format, represented by the value they encode. -/
inductive RawPayload where
  | bytes (bs : List Nat)
  | xlsxContent (wb : Workbook)
  | parquetContent (fr : Frame)

/-- Models Python `str.split(sep)` on a one-character separator, on the
character list: splits at every separator, keeping empty fragments. -/
def splitCharList (sep : Char) (cs : List Char) : List (List Char) :=
  cs.foldr
    (fun c acc =>
      match acc with
      | cur :: rest => if c = sep then [] :: cur :: rest else (c :: cur) :: rest
      | [] => [[c]])
    [[]]

/-- Models Python `s.split(sep)` for a one-character separator `sep`
(`"a//b".split("/") = ["a", "", "b"]`, `"".split("/") = [""]`). -/
def pySplit (s : String) (sep : Char) : List String :=
  (splitCharList sep s.data).map fun cs => String.mk cs

/-- Models Python negative indexing `l[-k]` (for `k ≥ 1`): the element `k`
places from the end, or no value when the list is shorter than `k`
(Python raises `IndexError` there). -/
def pyGetNeg {α : Type} (l : List α) (k : Nat) : Option α :=
  if k ≤ l.length then l[l.length - k]? else none

/-- Models Python `l[i]` for a nonnegative index: the element, or an
`IndexError` when out of range. -/
def pyGet {α : Type} : List α → Nat → Except String α
  | a :: _, 0 => .ok a
  | _ :: l, i + 1 => pyGet l i
  | [], _ => .error "IndexError: list index out of range"

/-- `read_public_file_from_gdrive`, line 54: `file_url.split("/")[-2]`. -/
def public_gdrive_file_id (file_url : String) : Option String :=
  pyGetNeg (pySplit file_url '/') 2

/-- `read_private_sheets`, line 92: `sheet_url.split("/")[-2]`. -/
def private_sheets_file_id (sheet_url : String) : Option String :=
  pyGetNeg (pySplit sheet_url '/') 2

/-- `read_private_file_from_gdrive`, line 130: `file_url.split("/")[-2]`. -/
def private_gdrive_file_id (file_url : String) : Option String :=
  pyGetNeg (pySplit file_url '/') 2

/-- `read_private_sheets`, lines 97-100: the worksheet rows retrieved by
`worksheet.get_all_values()` are framed by
`pd.DataFrame(list_rows_worksheet[1:], columns=list_rows_worksheet[0])`.
`list_rows_worksheet[0]` raises `IndexError` on an empty worksheet;
`[1:]` never fails.  gspread returns all cells as strings and
`pd.DataFrame` keeps them as such. -/
def read_private_sheets_frame (list_rows_worksheet : List (List String)) :
    Except String Frame := do
  let header ← pyGet list_rows_worksheet 0
  ; .ok { columns := header
        , cells := (list_rows_worksheet.drop 1).map fun r => r.map Cell.str }

/-- Error-handling policy of Python `bytes.decode` (`errors=` keyword):
`strict` raises on invalid byte sequences, `replace` substitutes U+FFFD,
`ignore` drops them. -/
inductive ErrPolicy where
  | strict
  | replace
  | ignore
deriving DecidableEq

/-- Sheet selector of `pandas.read_excel` (`sheet_name=` keyword): a sheet
index or a sheet name. -/
inductive SheetSel where
  | idx (i : Nat)
  | nm (s : String)
deriving DecidableEq

/-- The keyword options (`**kwargs`) each reader forwards verbatim to the
underlying parser.  Only the options the claims depend on are interpreted:
the xlsx sheet selector and the txt error policy; everything else is
pass-through the underlying parsers consume with their defaults. -/
structure Kwargs where
  sheet_name : Option SheetSel
  errors : ErrPolicy
deriving DecidableEq

/-- Is `b` a UTF-8 continuation byte (`0x80..0xBF`)? -/
def isCont (b : Nat) : Bool := 0x80 ≤ b && b ≤ 0xBF

/-- Decode one UTF-8 unit from the front of a byte list: `(some c, rest)`
on success, `(none, rest)` after consuming the offending byte on an
invalid or truncated sequence (surrogates and overlong forms rejected). -/
def utf8Step : List Nat → Option Char × List Nat
  | [] => (none, [])
  | b :: rest =>
    if b ≤ 0x7F then (some (Char.ofNat b), rest)
    else if 0xC2 ≤ b && b ≤ 0xDF then
      match rest with
      | b1 :: rest1 =>
        if isCont b1 then
          (some (Char.ofNat ((b - 0xC0) * 0x40 + (b1 - 0x80))), rest1)
        else (none, rest)
      | [] => (none, [])
    else if 0xE0 ≤ b && b ≤ 0xEF then
      match rest with
      | b1 :: b2 :: rest2 =>
        if isCont b1 && isCont b2 && !(b = 0xE0 && b1 < 0xA0)
            && !(b = 0xED && 0xA0 ≤ b1) then
          (some (Char.ofNat
            ((b - 0xE0) * 0x1000 + (b1 - 0x80) * 0x40 + (b2 - 0x80))), rest2)
        else (none, rest)
      | _ => (none, rest)
    else if 0xF0 ≤ b && b ≤ 0xF4 then
      match rest with
      | b1 :: b2 :: b3 :: rest3 =>
        if isCont b1 && isCont b2 && isCont b3 && !(b = 0xF0 && b1 < 0x90)
            && !(b = 0xF4 && 0x90 ≤ b1) then
          (some (Char.ofNat ((b - 0xF0) * 0x40000 + (b1 - 0x80) * 0x1000
            + (b2 - 0x80) * 0x40 + (b3 - 0x80))), rest3)
        else (none, rest)
      | _ => (none, rest)
    else (none, rest)

/-- Fuelled UTF-8 decoding loop applying the error policy at each invalid
unit.  Each step consumes at least one byte, so fuel = byte count suffices. -/
def utf8Go (policy : ErrPolicy) : Nat → List Nat → Option (List Char)
  | _, [] => some []
  | 0, _ :: _ => none
  | fuel + 1, b :: bs =>
    match utf8Step (b :: bs) with
    | (some c, rest) => (utf8Go policy fuel rest).map fun cs => c :: cs
    | (none, rest) =>
      match policy with
      | .strict => none
      | .replace => (utf8Go policy fuel rest).map fun cs => Char.ofNat 0xFFFD :: cs
      | .ignore => utf8Go policy fuel rest

/-- Models Python `bytes.decode("utf-8", errors=policy)` as a value:
`none` exactly when `strict` hits an invalid sequence. -/
def utf8Decode (policy : ErrPolicy) (bs : List Nat) : Option String :=
  (utf8Go policy bs.length bs).map fun cs => String.mk cs

/-- Models Python `byte_stream.decode("utf-8", **kwargs)`: the decoded
string, or the raised `UnicodeDecodeError`. -/
def bytes_decode_utf8 (policy : ErrPolicy) (bs : List Nat) : Except String String :=
  match utf8Decode policy bs with
  | some s => .ok s
  | none => .error "UnicodeDecodeError"

/-- The UTF-8 bytes of a string (models Python `str.encode("utf-8")`),
written over `List Nat`. -/
def utf8EncodeChar (c : Char) : List Nat :=
  let n := c.toNat
  if n < 0x80 then [n]
  else if n < 0x800 then [0xC0 + n / 0x40, 0x80 + n % 0x40]
  else if n < 0x10000 then
    [0xE0 + n / 0x1000, 0x80 + n / 0x40 % 0x40, 0x80 + n % 0x40]
  else
    [0xF0 + n / 0x40000, 0x80 + n / 0x1000 % 0x40,
      0x80 + n / 0x40 % 0x40, 0x80 + n % 0x40]

/-- UTF-8 encoding of a whole string as a byte list. -/
def utf8Encode (s : String) : List Nat :=
  (s.data.map utf8EncodeChar).flatten

/-- Python values produced by the JSON decoders: `json.load` yields
null/bool/int/str/list/dict (insertion-ordered), and `bson.json_util`
additionally materialises extended JSON types such as ObjectId. -/
inductive PyVal where
  | null
  | bool (b : Bool)
  | int (i : Int)
  | str (s : String)
  | list (xs : List PyVal)
  | dict (kvs : List (String × PyVal))
  | objectId (s : String)

/-- The `{` character (written by code point to keep it out of literals). -/
def lbraceChar : Char := Char.ofNat 123

/-- The `}` character. -/
def rbraceChar : Char := Char.ofNat 125

/-- Drop leading JSON whitespace. -/
def skipWs : List Char → List Char
  | c :: cs =>
    if c = ' ' || c = '\t' || c = '\n' || c = '\r' then skipWs cs else c :: cs
  | [] => []

/-- Parse the body of a JSON string literal (after the opening quote) up to
its closing quote, handling the basic escapes. -/
def parseStrLit : List Char → Option (List Char × List Char)
  | [] => none
  | c :: cs =>
    if c = '\"' then some ([], cs)
    else if c = '\\' then
      match cs with
      | d :: cs2 =>
        let esc : Option Char :=
          if d = 'n' then some '\n'
          else if d = 't' then some '\t'
          else if d = 'r' then some '\r'
          else if d = '\"' then some '\"'
          else if d = '\\' then some '\\'
          else if d = '/' then some '/'
          else none
        match esc with
        | some e => (parseStrLit cs2).map fun pr => (e :: pr.1, pr.2)
        | none => none
      | [] => none
    else (parseStrLit cs).map fun pr => (c :: pr.1, pr.2)

/-- Consume a maximal run of decimal digits, accumulating their value. -/
def parseDigitsAux (acc : Nat) : List Char → Nat × List Char
  | c :: cs =>
    if c.isDigit then parseDigitsAux (acc * 10 + (c.toNat - 48)) cs
    else (acc, c :: cs)
  | [] => (acc, [])

mutual

/-- Fuelled JSON value parser, modelling Python `json.loads` with an
`object_hook` applied to each parsed object (the JSON subset without
floats/exponents and with the basic string escapes, which covers every
decode contract of this repository).  Each recursive call consumes at
least one character, so fuel = input length suffices. -/
def parseVal (hook : List (String × PyVal) → PyVal) :
    Nat → List Char → Option (PyVal × List Char)
  | 0, _ => none
  | fuel + 1, cs =>
    match skipWs cs with
    | [] => none
    | c :: cs1 =>
      if c = lbraceChar then
        match skipWs cs1 with
        | c2 :: cs2 =>
          if c2 = rbraceChar then some (hook [], cs2)
          else
            (parseObjItems hook fuel (c2 :: cs2)).map fun pr => (hook pr.1, pr.2)
        | [] => none
      else if c = '[' then
        match skipWs cs1 with
        | c2 :: cs2 =>
          if c2 = ']' then some (.list [], cs2)
          else
            (parseArrItems hook fuel (c2 :: cs2)).map fun pr =>
              (PyVal.list pr.1, pr.2)
        | [] => none
      else if c = '\"' then
        (parseStrLit cs1).map fun pr => (PyVal.str (String.mk pr.1), pr.2)
      else if c = '-' then
        match cs1 with
        | d :: _ =>
          if d.isDigit then
            let pr := parseDigitsAux 0 cs1
            some (.int (-(pr.1 : Int)), pr.2)
          else none
        | [] => none
      else if c.isDigit then
        let pr := parseDigitsAux (c.toNat - 48) cs1
        some (.int (pr.1 : Int), pr.2)
      else if c = 't' then
        match cs1 with
        | 'r' :: 'u' :: 'e' :: cs2 => some (.bool true, cs2)
        | _ => none
      else if c = 'f' then
        match cs1 with
        | 'a' :: 'l' :: 's' :: 'e' :: cs2 => some (.bool false, cs2)
        | _ => none
      else if c = 'n' then
        match cs1 with
        | 'u' :: 'l' :: 'l' :: cs2 => some (.null, cs2)
        | _ => none
      else none

/-- Items of a JSON array after the opening bracket (at least one item). -/
def parseArrItems (hook : List (String × PyVal) → PyVal) :
    Nat → List Char → Option (List PyVal × List Char)
  | 0, _ => none
  | fuel + 1, cs =>
    match parseVal hook fuel cs with
    | some (v, r) =>
      match skipWs r with
      | c :: r1 =>
        if c = ',' then
          (parseArrItems hook fuel r1).map fun pr => (v :: pr.1, pr.2)
        else if c = ']' then some ([v], r1)
        else none
      | [] => none
    | none => none

/-- Members of a JSON object after the opening brace (at least one member),
in source order. -/
def parseObjItems (hook : List (String × PyVal) → PyVal) :
    Nat → List Char → Option (List (String × PyVal) × List Char)
  | 0, _ => none
  | fuel + 1, cs =>
    match skipWs cs with
    | c :: cs1 =>
      if c = '\"' then
        match parseStrLit cs1 with
        | some (k, r) =>
          match skipWs r with
          | c2 :: r1 =>
            if c2 = ':' then
              match parseVal hook fuel r1 with
              | some (v, r2) =>
                match skipWs r2 with
                | c3 :: r3 =>
                  if c3 = ',' then
                    (parseObjItems hook fuel r3).map fun pr =>
                      ((String.mk k, v) :: pr.1, pr.2)
                  else if c3 = rbraceChar then some ([(String.mk k, v)], r3)
                  else none
                | [] => none
              | none => none
            else none
          | [] => none
        | none => none
      else none
    | [] => none

end

/-- Parse a whole JSON document with the given object hook: the value, with
nothing but whitespace allowed after it. -/
def parseJson (hook : List (String × PyVal) → PyVal) (s : String) : Option PyVal :=
  match parseVal hook (s.data.length + 1) s.data with
  | some (v, r) => if (skipWs r).isEmpty then some v else none
  | none => none

/-- The object hook of `bson.json_util.loads`: an object whose single member
is the extended-JSON key `$oid` becomes an ObjectId; other objects stay
insertion-ordered dicts. -/
def bson_object_hook (kvs : List (String × PyVal)) : PyVal :=
  match kvs with
  | [(k, PyVal.str s)] => if k = "$oid" then .objectId s else .dict kvs
  | _ => .dict kvs

/-- Lines of a csv text: split on newline with blank lines skipped
(pandas `skip_blank_lines` default, which also absorbs a trailing
newline). -/
def csvLines (s : String) : List String :=
  (pySplit s '\n').filter fun l => l ≠ ""

/-- All-digit text (with optional leading minus) as an integer. -/
def intOfText (s : String) : Option Int :=
  match s.data with
  | [] => none
  | c :: cs =>
    if c = '-' then
      match cs with
      | [] => none
      | d :: _ =>
        if d.isDigit then
          let pr := parseDigitsAux 0 cs
          if pr.2.isEmpty then some (-(pr.1 : Int)) else none
        else none
    else if c.isDigit then
      let pr := parseDigitsAux (c.toNat - 48) cs
      if pr.2.isEmpty then some (pr.1 : Int) else none
    else none

/-- The numeric inference pandas applies to csv cells: integer-looking
text becomes an integer cell, anything else stays a string cell. -/
def inferCell (s : String) : Cell :=
  match intOfText s with
  | some i => .int i
  | none => .str s

/-- Models default `pandas.read_csv` on text content: the first row is the
column header, the remaining rows are data cells with numeric inference;
empty input raises `EmptyDataError`. -/
def parseCsvText (text : String) : Except String Frame :=
  match csvLines text with
  | [] => .error "EmptyDataError: No columns to parse from file"
  | hd :: rest =>
    .ok { columns := pySplit hd ','
        , cells := rest.map fun l => (pySplit l ',').map inferCell }

/-- Models `pd.read_csv` as the readers invoke it: the payload's bytes are
UTF-8 text to parse; a non-text payload is a parser failure.  The
forwarded kwargs are pass-through options the claims do not interpret. -/
def pd_read_csv (payload : RawPayload) (_kwargs : Kwargs) : Except String Frame :=
  match payload with
  | .bytes bs =>
    match utf8Decode .strict bs with
    | some text => parseCsvText text
    | none => .error "UnicodeDecodeError"
  | _ => .error "ParserError: payload is not csv text"

/-- Models `pd.read_excel` on an xlsx payload: the first sheet by default
(`sheet_name=0`), or the sheet the forwarded `sheet_name` kwarg selects by
index or name. -/
def pd_read_excel (payload : RawPayload) (kwargs : Kwargs) : Except String Frame :=
  match payload with
  | .xlsxContent wb =>
    match kwargs.sheet_name with
    | none =>
      match wb.sheets with
      | [] => .error "ValueError: workbook has no sheets"
      | (_, fr) :: _ => .ok fr
    | some (.idx i) =>
      match wb.sheets[i]? with
      | some (_, fr) => .ok fr
      | none => .error "IndexError: sheet index out of range"
    | some (.nm n) =>
      match wb.sheets.find? (fun sh => sh.1 == n) with
      | some (_, fr) => .ok fr
      | none => .error "KeyError: no sheet with the given name"
  | _ => .error "ValueError: payload is not xlsx content"

/-- Models `pd.read_parquet` on a parquet payload: the frame the columnar
binary encodes. -/
def pd_read_parquet (payload : RawPayload) (_kwargs : Kwargs) : Except String Frame :=
  match payload with
  | .parquetContent fr => .ok fr
  | _ => .error "ArrowInvalid: payload is not parquet content"

/-- Models `json.load` on the payload's text: UTF-8 decode, then plain JSON
parsing into insertion-ordered dicts. -/
def json_load (payload : RawPayload) : Except String PyVal :=
  match payload with
  | .bytes bs =>
    match utf8Decode .strict bs with
    | some text =>
      match parseJson PyVal.dict text with
      | some v => .ok v
      | none => .error "JSONDecodeError"
    | none => .error "UnicodeDecodeError"
  | _ => .error "JSONDecodeError: payload is not text"

/-- Models `bson.json_util.loads`: JSON parsing with the extended-JSON
object hook that materialises database-specific types such as ObjectId. -/
def json_util_loads (payload : RawPayload) : Except String PyVal :=
  match payload with
  | .bytes bs =>
    match utf8Decode .strict bs with
    | some text =>
      match parseJson bson_object_hook text with
      | some v => .ok v
      | none => .error "JSONDecodeError"
    | none => .error "UnicodeDecodeError"
  | _ => .error "JSONDecodeError: payload is not text"

/-- The Decoded Result of a reader function: a tabular frame, a Python
object (mapping or nested structure from JSON), or a plain string. -/
inductive Decoded where
  | frame (f : Frame)
  | pyobj (v : PyVal)
  | str (s : String)

/-- Decode dispatch of `read_public_file_from_gdrive` (lines 59-66): the
retrieved content is tried against the tags `csv`, `xlsx`, `json` in
order.  `.ok none` is the implicit `return None` Python falls through to
when no branch matches; `.error` is a raised parser failure. -/
def read_public_file_from_gdrive_decode (payload : RawPayload)
    (file_format : String) (kwargs : Kwargs) : Except String (Option Decoded) :=
  if file_format = "csv" then
    (pd_read_csv payload kwargs).map fun f => some (.frame f)
  else if file_format = "xlsx" then
    (pd_read_excel payload kwargs).map fun f => some (.frame f)
  else if file_format = "json" then
    (json_load payload).map fun v => some (.pyobj v)
  else .ok none

/-- Decode dispatch of `read_private_file_from_gdrive` (lines 137-154):
tags `csv`, `xlsx`, `parquet`, `json`, `txt` in order; the `txt` branch is
`byte_stream.decode("utf-8", **kwargs)`.  `.ok none` is the implicit
`return None` when no branch matches. -/
def read_private_file_from_gdrive_decode (payload : RawPayload)
    (file_format : String) (kwargs : Kwargs) : Except String (Option Decoded) :=
  if file_format = "csv" then
    (pd_read_csv payload kwargs).map fun f => some (.frame f)
  else if file_format = "xlsx" then
    (pd_read_excel payload kwargs).map fun f => some (.frame f)
  else if file_format = "parquet" then
    (pd_read_parquet payload kwargs).map fun f => some (.frame f)
  else if file_format = "json" then
    (json_load payload).map fun v => some (.pyobj v)
  else if file_format = "txt" then
    match payload with
    | .bytes bs => (bytes_decode_utf8 kwargs.errors bs).map fun s => some (.str s)
    | _ => .error "UnicodeDecodeError"
  else .ok none

/-- Decode dispatch of `read_file_from_gcloud_storage` (lines 204-214):
tags `csv`, `parquet`, `json`, `txt` in order — there is no `xlsx` branch
— with the `json` branch using `bson.json_util.loads` (extended JSON).
`.ok none` is the implicit `return None` when no branch matches. -/
def read_file_from_gcloud_storage_decode (payload : RawPayload)
    (file_format : String) (kwargs : Kwargs) : Except String (Option Decoded) :=
  if file_format = "csv" then
    (pd_read_csv payload kwargs).map fun f => some (.frame f)
  else if file_format = "parquet" then
    (pd_read_parquet payload kwargs).map fun f => some (.frame f)
  else if file_format = "json" then
    (json_util_loads payload).map fun v => some (.pyobj v)
  else if file_format = "txt" then
    match payload with
    | .bytes bs => (bytes_decode_utf8 kwargs.errors bs).map fun s => some (.str s)
    | _ => .error "UnicodeDecodeError"
  else .ok none

/-- The format tags `read_public_file_from_gdrive` has branches for. -/
def gdrive_public_formats : List String := ["csv", "xlsx", "json"]

/-- The format tags `read_private_file_from_gdrive` has branches for. -/
def gdrive_private_formats : List String := ["csv", "xlsx", "parquet", "json", "txt"]

/-- The format tags `read_file_from_gcloud_storage` has branches for (note:
no `xlsx`, although the docstring lists it). -/
def gcloud_storage_formats : List String := ["csv", "parquet", "json", "txt"]

/-- `l[-2]` is the last element of `l.dropLast` when `l` has at least two
elements. -/
theorem pyGetNeg_two_eq_dropLast_getLast {α : Type} (l : List α)
    (h : 2 ≤ l.length) : pyGetNeg l 2 = l.dropLast.getLast? := by
  rw [pyGetNeg, if_pos h, List.getLast?_eq_getElem?, List.length_dropLast,
    List.getElem?_dropLast]
  have h2 : l.length - 1 - 1 = l.length - 2 := by omega
  rw [h2, if_pos (by omega)]

/-- C3: for every Sheets or Drive URL, the resource identifier extracted by
`read_public_file_from_gdrive`, `read_private_sheets` and
`read_private_file_from_gdrive` is the second-to-last `/`-delimited
segment (the last element after dropping the final segment); for the URL
`https://docs.google.com/spreadsheets/d/ABC123/edit#gid=0` the extracted
ID is `ABC123` in all three. -/
theorem url_id_is_second_to_last_segment (url : String)
    (h : 2 ≤ (pySplit url '/').length) :
    public_gdrive_file_id url = (pySplit url '/').dropLast.getLast? ∧
    private_sheets_file_id url = (pySplit url '/').dropLast.getLast? ∧
    private_gdrive_file_id url = (pySplit url '/').dropLast.getLast? ∧
    public_gdrive_file_id "https://docs.google.com/spreadsheets/d/ABC123/edit#gid=0"
      = some "ABC123" ∧
    private_sheets_file_id "https://docs.google.com/spreadsheets/d/ABC123/edit#gid=0"
      = some "ABC123" ∧
    private_gdrive_file_id "https://docs.google.com/spreadsheets/d/ABC123/edit#gid=0"
      = some "ABC123" := by
  refine ⟨?_, ?_, ?_, by decide, by decide, by decide⟩ <;>
    exact pyGetNeg_two_eq_dropLast_getLast _ h

/-- Witness for C3 at the spec's example URL. -/
theorem url_id_is_second_to_last_segment_witness :
    2 ≤ (pySplit "https://docs.google.com/spreadsheets/d/ABC123/edit#gid=0" '/').length ∧
    public_gdrive_file_id "https://docs.google.com/spreadsheets/d/ABC123/edit#gid=0"
      = (pySplit "https://docs.google.com/spreadsheets/d/ABC123/edit#gid=0" '/').dropLast.getLast? ∧
    public_gdrive_file_id "https://docs.google.com/spreadsheets/d/ABC123/edit#gid=0"
      = some "ABC123" :=
  ⟨by decide,
    (url_id_is_second_to_last_segment _ (by decide)).1,
    (url_id_is_second_to_last_segment
      "https://docs.google.com/spreadsheets/d/ABC123/edit#gid=0" (by decide)).2.2.2.1⟩

/-- C4: on a non-empty list of retrieved worksheet rows,
`read_private_sheets` frames the data with the first row as the column
headers and the remaining rows, in order, as the data rows. -/
theorem private_sheets_first_row_header (rows : List (List String))
    (hd : List String) (tl : List (List String)) (h : rows = hd :: tl) :
    read_private_sheets_frame rows =
      .ok { columns := hd, cells := tl.map fun r => r.map Cell.str } := by
  subst h
  rfl

/-- Witness for C4 on a concrete two-row worksheet. -/
theorem private_sheets_first_row_header_witness :
    ([["a", "b"], ["1", "2"]] : List (List String)) = ["a", "b"] :: [["1", "2"]] ∧
    read_private_sheets_frame [["a", "b"], ["1", "2"]] =
      .ok { columns := ["a", "b"], cells := [[Cell.str "1", Cell.str "2"]] } :=
  ⟨rfl, private_sheets_first_row_header _ ["a", "b"] [["1", "2"]] rfl⟩

/-- C10: `read_private_sheets` requires a non-empty worksheet: on an empty
row list the header access `list_rows_worksheet[0]` raises `IndexError`
(no empty frame is returned), and on every non-empty row list the
function produces a frame, so the error branch is unreachable under the
non-emptiness precondition. -/
theorem private_sheets_empty_rows_index_error :
    read_private_sheets_frame [] = .error "IndexError: list index out of range" ∧
    ∀ rows : List (List String), rows ≠ [] →
      ∃ fr : Frame, read_private_sheets_frame rows = .ok fr := by
  refine ⟨rfl, ?_⟩
  intro rows hne
  match rows, hne with
  | r :: rs, _ => exact ⟨_, rfl⟩

/-- Witness for C10's non-emptiness precondition at a concrete worksheet. -/
theorem private_sheets_empty_rows_index_error_witness :
    ∃ fr : Frame, read_private_sheets_frame [["x"]] = .ok fr :=
  private_sheets_empty_rows_index_error.2 [["x"]] (by decide)

/-- C1: a format tag outside the supported set of the called function
(e.g. `yaml`) makes each of the three dispatch functions fall through all
branches and return `None` — no error is raised — and this fall-through
behavior is uniform across the three functions. -/
theorem unsupported_format_returns_none (payload : RawPayload)
    (kwargs : Kwargs) (file_format : String) :
    (file_format ∉ gdrive_public_formats →
      read_public_file_from_gdrive_decode payload file_format kwargs = .ok none) ∧
    (file_format ∉ gdrive_private_formats →
      read_private_file_from_gdrive_decode payload file_format kwargs = .ok none) ∧
    (file_format ∉ gcloud_storage_formats →
      read_file_from_gcloud_storage_decode payload file_format kwargs = .ok none) := by
  refine ⟨?_, ?_, ?_⟩
  · intro h
    simp only [gdrive_public_formats, List.mem_cons, List.not_mem_nil, or_false,
      not_or] at h
    obtain ⟨h1, h2, h3⟩ := h
    simp [read_public_file_from_gdrive_decode, h1, h2, h3]
  · intro h
    simp only [gdrive_private_formats, List.mem_cons, List.not_mem_nil, or_false,
      not_or] at h
    obtain ⟨h1, h2, h3, h4, h5⟩ := h
    simp [read_private_file_from_gdrive_decode, h1, h2, h3, h4, h5]
  · intro h
    simp only [gcloud_storage_formats, List.mem_cons, List.not_mem_nil, or_false,
      not_or] at h
    obtain ⟨h1, h2, h3, h4⟩ := h
    simp [read_file_from_gcloud_storage_decode, h1, h2, h3, h4]

/-- Witness for C1 at the format tag `yaml`. -/
theorem unsupported_format_returns_none_witness :
    "yaml" ∉ gdrive_public_formats ∧ "yaml" ∉ gdrive_private_formats ∧
    "yaml" ∉ gcloud_storage_formats ∧
    read_public_file_from_gdrive_decode (.bytes []) "yaml" ⟨none, .strict⟩ = .ok none ∧
    read_private_file_from_gdrive_decode (.bytes []) "yaml" ⟨none, .strict⟩ = .ok none ∧
    read_file_from_gcloud_storage_decode (.bytes []) "yaml" ⟨none, .strict⟩ = .ok none :=
  ⟨by decide, by decide, by decide,
    (unsupported_format_returns_none (.bytes []) ⟨none, .strict⟩ "yaml").1 (by decide),
    (unsupported_format_returns_none (.bytes []) ⟨none, .strict⟩ "yaml").2.1 (by decide),
    (unsupported_format_returns_none (.bytes []) ⟨none, .strict⟩ "yaml").2.2 (by decide)⟩

/-- C9: `read_file_from_gcloud_storage` has no decode branch for `xlsx`
(although its docstring lists `xlsx` as a valid `file_format`): every call
with that tag falls through and returns `None` rather than a frame. -/
theorem gcloud_storage_xlsx_returns_none (payload : RawPayload) (kwargs : Kwargs) :
    read_file_from_gcloud_storage_decode payload "xlsx" kwargs = .ok none := rfl

/-- C5: the `txt` branches of `read_private_file_from_gdrive` and
`read_file_from_gcloud_storage` decode the payload bytes as UTF-8 text
under the caller-specified error-handling policy, and decoding the UTF-8
bytes of `"hello"` yields the string `"hello"` in both. -/
theorem txt_decodes_utf8_with_policy (bs : List Nat) (kwargs : Kwargs) :
    read_private_file_from_gdrive_decode (.bytes bs) "txt" kwargs =
      (bytes_decode_utf8 kwargs.errors bs).map (fun s => some (.str s)) ∧
    read_file_from_gcloud_storage_decode (.bytes bs) "txt" kwargs =
      (bytes_decode_utf8 kwargs.errors bs).map (fun s => some (.str s)) ∧
    read_private_file_from_gdrive_decode (.bytes (utf8Encode "hello")) "txt"
      ⟨none, .strict⟩ = .ok (some (.str "hello")) ∧
    read_file_from_gcloud_storage_decode (.bytes (utf8Encode "hello")) "txt"
      ⟨none, .strict⟩ = .ok (some (.str "hello")) :=
  ⟨rfl, rfl, rfl, rfl⟩

/-- The spec's JSON example document (braces written via code points). -/
def json_example_text : String := "\x7b\"x\": 1, \"y\": [2,3]\x7d"

/-- An extended-JSON document carrying a BSON ObjectId marker. -/
def json_oid_text : String := "\x7b\"$oid\": \"507f191e810c19729de860ea\"\x7d"

/-- C6: the `json` branch of `read_file_from_gcloud_storage` parses with
extended JSON type decoding (`bson.json_util.loads`), while the `json`
branches of the two Drive readers parse plain JSON into an
insertion-ordered mapping; both decodings of the spec's example document
yield the mapping `x ↦ 1, y ↦ [2,3]`, and on an extended-type document
(`$oid`) the Cloud Storage variant materialises an ObjectId where the
plain parse keeps a raw mapping. -/
theorem json_plain_vs_extended (bs : List Nat) (kwargs : Kwargs) :
    read_file_from_gcloud_storage_decode (.bytes bs) "json" kwargs =
      (json_util_loads (.bytes bs)).map (fun v => some (.pyobj v)) ∧
    read_public_file_from_gdrive_decode (.bytes bs) "json" kwargs =
      (json_load (.bytes bs)).map (fun v => some (.pyobj v)) ∧
    read_private_file_from_gdrive_decode (.bytes bs) "json" kwargs =
      (json_load (.bytes bs)).map (fun v => some (.pyobj v)) ∧
    json_load (.bytes (utf8Encode json_example_text)) =
      .ok (.dict [("x", .int 1), ("y", .list [.int 2, .int 3])]) ∧
    json_util_loads (.bytes (utf8Encode json_example_text)) =
      .ok (.dict [("x", .int 1), ("y", .list [.int 2, .int 3])]) ∧
    json_util_loads (.bytes (utf8Encode json_oid_text)) =
      .ok (.objectId "507f191e810c19729de860ea") ∧
    json_load (.bytes (utf8Encode json_oid_text)) =
      .ok (.dict [("$oid", .str "507f191e810c19729de860ea")]) :=
  ⟨rfl, rfl, rfl, rfl, rfl, rfl, rfl⟩

/-- The spec's csv example payload. -/
def csv_example_text : String := "a,b\n1,2\n3,4"

/-- The frame the spec's csv example decodes to: columns `a`, `b`, rows
`(1,2)` and `(3,4)`. -/
def csv_example_frame : Frame :=
  { columns := ["a", "b"]
  , cells := [[Cell.int 1, Cell.int 2], [Cell.int 3, Cell.int 4]] }

/-- C7: the `csv` decode parses comma-separated text with the first row as
the column headers and the remaining rows as data; on the example
`"a,b\n1,2\n3,4"` both `read_public_file_from_gdrive` and
`read_file_from_gcloud_storage` produce the two-row, two-column frame
with columns `a`, `b` and rows `(1,2)`, `(3,4)`. -/
theorem csv_first_row_is_header (text : String) (hd : String)
    (rest : List String) (kwargs : Kwargs) (h : csvLines text = hd :: rest) :
    parseCsvText text =
      .ok { columns := pySplit hd ','
          , cells := rest.map fun l => (pySplit l ',').map inferCell } ∧
    read_public_file_from_gdrive_decode (.bytes (utf8Encode csv_example_text))
      "csv" kwargs = .ok (some (.frame csv_example_frame)) ∧
    read_file_from_gcloud_storage_decode (.bytes (utf8Encode csv_example_text))
      "csv" kwargs = .ok (some (.frame csv_example_frame)) := by
  refine ⟨?_, rfl, rfl⟩
  simp only [parseCsvText, h]

/-- Witness for C7 at the spec's example csv payload. -/
theorem csv_first_row_is_header_witness :
    csvLines csv_example_text = "a,b" :: ["1,2", "3,4"] ∧
    parseCsvText csv_example_text =
      .ok { columns := pySplit "a,b" ','
          , cells := ["1,2", "3,4"].map fun l => (pySplit l ',').map inferCell } :=
  ⟨rfl,
    (csv_first_row_is_header csv_example_text "a,b" ["1,2", "3,4"]
      ⟨none, .strict⟩ rfl).1⟩

/-- C2: the `xlsx` branches of `read_public_file_from_gdrive` and
`read_private_file_from_gdrive` produce the tabular frame of the
workbook the spreadsheet bytes encode: the first sheet when no sheet
option is given, and the sheet the `sheet_name` option selects when one
is. -/
theorem xlsx_decodes_first_sheet_unless_overridden (wb : Workbook)
    (kwargs : Kwargs) (nm1 : String) (fr1 : Frame)
    (rest : List (String × Frame)) (hw : wb.sheets = (nm1, fr1) :: rest)
    (hk : kwargs.sheet_name = none) :
    read_public_file_from_gdrive_decode (.xlsxContent wb) "xlsx" kwargs =
      .ok (some (.frame fr1)) ∧
    read_private_file_from_gdrive_decode (.xlsxContent wb) "xlsx" kwargs =
      .ok (some (.frame fr1)) ∧
    ∀ kw2 : Kwargs, ∀ i : Nat, ∀ nm2 : String, ∀ fr2 : Frame,
      kw2.sheet_name = some (.idx i) → wb.sheets[i]? = some (nm2, fr2) →
      read_public_file_from_gdrive_decode (.xlsxContent wb) "xlsx" kw2 =
        .ok (some (.frame fr2)) ∧
      read_private_file_from_gdrive_decode (.xlsxContent wb) "xlsx" kw2 =
        .ok (some (.frame fr2)) := by
  refine ⟨?_, ?_, ?_⟩
  · simp [read_public_file_from_gdrive_decode, pd_read_excel, Except.map, hk, hw]
  · simp [read_private_file_from_gdrive_decode, pd_read_excel, Except.map, hk, hw]
  · intro kw2 i nm2 fr2 hk2 hi
    constructor
    · simp [read_public_file_from_gdrive_decode, pd_read_excel, Except.map, hk2, hi]
    · simp [read_private_file_from_gdrive_decode, pd_read_excel, Except.map, hk2, hi]

/-- Witness for C2 on a concrete two-sheet workbook: the default call
takes the first sheet, the `sheet_name` index 1 call takes the second. -/
theorem xlsx_decodes_first_sheet_unless_overridden_witness :
    read_public_file_from_gdrive_decode
      (.xlsxContent ⟨[("Sheet1", ⟨["a"], [[Cell.int 1]]⟩),
        ("Sheet2", ⟨["b"], [[Cell.int 2]]⟩)]⟩) "xlsx" ⟨none, .strict⟩ =
      .ok (some (.frame ⟨["a"], [[Cell.int 1]]⟩)) ∧
    read_public_file_from_gdrive_decode
      (.xlsxContent ⟨[("Sheet1", ⟨["a"], [[Cell.int 1]]⟩),
        ("Sheet2", ⟨["b"], [[Cell.int 2]]⟩)]⟩) "xlsx" ⟨some (.idx 1), .strict⟩ =
      .ok (some (.frame ⟨["b"], [[Cell.int 2]]⟩)) :=
  ⟨(xlsx_decodes_first_sheet_unless_overridden
      ⟨[("Sheet1", ⟨["a"], [[Cell.int 1]]⟩), ("Sheet2", ⟨["b"], [[Cell.int 2]]⟩)]⟩
      ⟨none, .strict⟩ "Sheet1" ⟨["a"], [[Cell.int 1]]⟩
      [("Sheet2", ⟨["b"], [[Cell.int 2]]⟩)] rfl rfl).1,
    ((xlsx_decodes_first_sheet_unless_overridden
      ⟨[("Sheet1", ⟨["a"], [[Cell.int 1]]⟩), ("Sheet2", ⟨["b"], [[Cell.int 2]]⟩)]⟩
      ⟨none, .strict⟩ "Sheet1" ⟨["a"], [[Cell.int 1]]⟩
      [("Sheet2", ⟨["b"], [[Cell.int 2]]⟩)] rfl rfl).2.2
      ⟨some (.idx 1), .strict⟩ 1 "Sheet2" ⟨["b"], [[Cell.int 2]]⟩ rfl
      (by decide)).1⟩

/-- C8: the decode step is a pure transformation, so it is deterministic:
two invocations on equal payloads, format tags and options yield equal
Decoded Results for all three dispatch functions (stated with the
claim's valid-payload premise on the first invocation). -/
theorem decode_deterministic (p1 p2 : RawPayload) (f1 f2 : String)
    (k1 k2 : Kwargs) (hp : p1 = p2) (hf : f1 = f2) (hk : k1 = k2)
    (_hvalid : ∃ d, read_file_from_gcloud_storage_decode p1 f1 k1 = .ok d) :
    read_file_from_gcloud_storage_decode p1 f1 k1 =
      read_file_from_gcloud_storage_decode p2 f2 k2 ∧
    read_public_file_from_gdrive_decode p1 f1 k1 =
      read_public_file_from_gdrive_decode p2 f2 k2 ∧
    read_private_file_from_gdrive_decode p1 f1 k1 =
      read_private_file_from_gdrive_decode p2 f2 k2 := by
  subst hp
  subst hf
  subst hk
  exact ⟨rfl, rfl, rfl⟩

/-- Witness for C8 at the example csv payload. -/
theorem decode_deterministic_witness :
    read_file_from_gcloud_storage_decode (.bytes (utf8Encode csv_example_text))
        "csv" ⟨none, .strict⟩ =
      read_file_from_gcloud_storage_decode (.bytes (utf8Encode csv_example_text))
        "csv" ⟨none, .strict⟩ ∧
    read_public_file_from_gdrive_decode (.bytes (utf8Encode csv_example_text))
        "csv" ⟨none, .strict⟩ =
      read_public_file_from_gdrive_decode (.bytes (utf8Encode csv_example_text))
        "csv" ⟨none, .strict⟩ :=
  ⟨(decode_deterministic (.bytes (utf8Encode csv_example_text))
      (.bytes (utf8Encode csv_example_text)) "csv" "csv" ⟨none, .strict⟩
      ⟨none, .strict⟩ rfl rfl rfl ⟨some (.frame csv_example_frame), rfl⟩).1,
    (decode_deterministic (.bytes (utf8Encode csv_example_text))
      (.bytes (utf8Encode csv_example_text)) "csv" "csv" ⟨none, .strict⟩
      ⟨none, .strict⟩ rfl rfl rfl ⟨some (.frame csv_example_frame), rfl⟩).2.1⟩

end GCloudFns
